import Mathlib

/-!
Verification development for the EduDesk repository.

Part 1 embeds the server-side password-reset endpoints: the Express
handlers for POST /api/forgot-password and POST /api/reset-password and
the SQL schema for the users and password_resets tables, as given in the
repository's deployment guide.

Part 2 embeds the browser API helpers of EduDesk/api-config.js
(AuthAPI, CalendarAPI, MoodAPI, GoalsAPI, StudyAPI).
-/

/-- A row of the `users` table (id and created_at omitted: no claim reads them). -/
structure User where
  name : String
  email : String
  password_hash : String
deriving DecidableEq

/-- A row of the `password_resets` table.  Timestamps are milliseconds.
`created_at` is filled by the database DEFAULT CURRENT_TIMESTAMP at insert time. -/
structure ResetRecord where
  email : String
  token : String
  expires_at : Nat
  created_at : Nat
deriving DecidableEq

/-- The database state: the `users` table and the `password_resets` table. -/
structure DB where
  users : List User
  password_resets : List ResetRecord
deriving DecidableEq

/-- A JSON response body: `res.json({ message })` or `res.json({ error })`. -/
inductive JsonBody where
  | message (m : String)
  | error (e : String)
deriving DecidableEq

/-- An HTTP response: status code (200 unless `res.status` is called) and body. -/
structure HttpResponse where
  status : Nat
  body : JsonBody
deriving DecidableEq

/-- Whether some `password_resets` row already holds this token value
(the condition under which the UNIQUE constraint on `token` rejects an INSERT). -/
def tokenExists (db : DB) (t : String) : Bool :=
  db.password_resets.any fun r => r.token == t

/-- POST /api/forgot-password.  `email` is the request-body field, `token` the
value produced by crypto.randomBytes(32).toString(hex) for this call, `jsNow`
the reading of the application clock (Date.now()), and `dbNow` the reading of
the database clock used for the `created_at DEFAULT CURRENT_TIMESTAMP` column
at insert time — the source reads two distinct clocks.  The UNIQUE constraint
on `password_resets.token` makes a colliding INSERT fail; the handler does not
catch that rejection, modelled as `.error` carrying the unchanged database.
The mail dispatch is an external collaborator modelled as succeeding. -/
def forgotPassword (db : DB) (email token : String) (jsNow dbNow : Nat) :
    Except DB (DB × HttpResponse) :=
  let userRows := db.users.filter fun u => u.email == email
  if userRows.isEmpty then
    .ok (db, ⟨200, .message "If this email is registered, a reset link will be sent."⟩)
  else if tokenExists db token then
    .error db
  else
    .ok ({ db with password_resets :=
            db.password_resets ++ [⟨email, token, jsNow + 3600000, dbNow⟩] },
         ⟨200, .message "Password reset link has been sent to your email."⟩)

/-- The rows returned by
SELECT * FROM password_resets WHERE token = $1 AND expires_at > NOW(). -/
def validResetRows (db : DB) (token : String) (now : Nat) : List ResetRecord :=
  db.password_resets.filter fun r => r.token == token && decide (now < r.expires_at)

/-- UPDATE users SET password_hash = $1 WHERE email = $2. -/
def updateUserPassword (db : DB) (email newHash : String) : DB :=
  { db with users := db.users.map fun u =>
      if u.email == email then { u with password_hash := newHash } else u }

/-- DELETE FROM password_resets WHERE token = $1. -/
def deleteResetToken (db : DB) (token : String) : DB :=
  { db with password_resets := db.password_resets.filter fun r => !(r.token == token) }

/-- POST /api/reset-password, run to completion.  `hash` models the external
bcrypt.hash collaborator, `now` the database clock read by NOW() in the SELECT.
The handler validates the token, hashes the password, updates the user row and
deletes the token row — two separate queries with no transaction. -/
def resetPassword (hash : String → String) (db : DB) (token password : String)
    (now : Nat) : DB × HttpResponse :=
  match validResetRows db token now with
  | [] => (db, ⟨400, .error "Invalid or expired token"⟩)
  | r :: _ =>
    let db1 := updateUserPassword db r.email (hash password)
    let db2 := deleteResetToken db1 token
    (db2, ⟨200, .message "Password reset successful"⟩)

/-- POST /api/reset-password, interrupted between its two store writes: the
execution performs the UPDATE of `users` and stops (crash, process kill, lost
connection) before the DELETE of the token row.  The two writes are separate
awaited queries with no enclosing transaction, so this intermediate database
state is reachable. -/
def resetPasswordCrashAfterUpdate (hash : String → String) (db : DB)
    (token password : String) (now : Nat) : DB :=
  match validResetRows db token now with
  | [] => db
  | r :: _ => updateUserPassword db r.email (hash password)

/-- One API operation against the store. -/
inductive Op where
  | forgot (email token : String) (jsNow dbNow : Nat)
  | reset (token password : String) (now : Nat)
deriving DecidableEq

/-- The database state after one operation (responses discarded). -/
def applyOp (hash : String → String) (db : DB) : Op → DB
  | .forgot email token jsNow dbNow =>
      match forgotPassword db email token jsNow dbNow with
      | .ok (db2, _) => db2
      | .error db2 => db2
  | .reset token password now => (resetPassword hash db token password now).1

/-- The database state after a sequence of operations. -/
def runOps (hash : String → String) (db : DB) (ops : List Op) : DB :=
  ops.foldl (applyOp hash) db

/-- Whether an operation is a forgot-password call whose generated token is `tok`. -/
def opMintsToken (tok : String) : Op → Bool
  | .forgot _ t _ _ => t == tok
  | .reset _ _ _ => false

/-- Whether some stored row matches the reset-password SELECT for this token:
same token value and expires_at strictly greater than now. -/
def hasValidToken (db : DB) (token : String) (now : Nat) : Bool :=
  db.password_resets.any fun r => r.token == token && decide (now < r.expires_at)

/-- Stand-in for the external bcrypt hasher (bcrypt.hash(password, 10)):
an injective tagging function.  The claims depend only on the stored hash
being replaced, never on the hash value itself. -/
def hashPassword (p : String) : String := "hashed:" ++ p

/-- Modelled from the spec: the password policy (minimum 8 characters, at
least one uppercase letter, one lowercase letter, one digit) documented in
the deployment guide's Password Requirements and in spec section 4.3.  The
server-side reset handler in the source contains no such check; this
definition exists to state that absence. -/
def passwordMeetsPolicy (p : String) : Bool :=
  decide (8 ≤ p.data.length) && p.data.any Char.isUpper
    && p.data.any Char.isLower && p.data.any Char.isDigit

/-- A registered user used by concrete instances. -/
def userA : User := ⟨"Alice", "u@e", "oldhash"⟩

/-- A database holding one registered user and no reset tokens. -/
def dbOneUser : DB := ⟨[userA], []⟩

/-- A live reset token row for the registered user. -/
def tokRecord : ResetRecord := ⟨"u@e", "tok", 100, 0⟩

/-- A database holding one registered user and one live reset token. -/
def dbUserToken : DB := ⟨[userA], [tokRecord]⟩

/-- A database holding a live reset token whose email matches no user. -/
def dbOrphan : DB := ⟨[], [⟨"ghost@e", "tok", 100, 0⟩]⟩

/-- The row inserted by a forgot-password call whose Date.now() reading is 0
while the database clock reads 1 at insert time. -/
def skewRecord : ResetRecord := ⟨"u@e", "t1", 3600000, 1⟩

/-!
Part 2: the browser API helpers of EduDesk/api-config.js.

Each helper runs `fetch`, awaits `response.json()`, and branches on
`response.ok`, all inside a try block whose catch clause returns a fixed
fallback.  JavaScript exceptions are modelled with `Except JsError`: the
body of the try block is an `Except` computation, and the exported helper
applies the catch clause to its result, so the exported helper is total.
-/

/-- A JavaScript exception raised inside a try block of api-config.js. -/
inductive JsError where
  | fetchRejected
  | jsonRejected
  | thrownMsg (msg : String)
deriving DecidableEq

/-- An HTTP response as seen by the client: the `ok` flag and the outcome of
reading/parsing the body (`.error ()` when `response.json()` would reject). -/
structure HttpResp (α : Type) where
  ok : Bool
  bodyJson : Except Unit α

/-- The outcome of `await fetch(...)`: rejection (network error) or a response. -/
inductive FetchOutcome (α : Type) where
  | networkError : FetchOutcome α
  | response : HttpResp α → FetchOutcome α

/-- `const response = await fetch(...)` — raises on network error. -/
def FetchOutcome.awaitFetch {α : Type} : FetchOutcome α → Except JsError (HttpResp α)
  | .networkError => .error .fetchRejected
  | .response r => .ok r

/-- `await response.json()` — raises when the body is not valid JSON. -/
def HttpResp.json {α : Type} (r : HttpResp α) : Except JsError α :=
  match r.bodyJson with
  | .ok a => .ok a
  | .error _ => .error .jsonRejected

/-- The parsed JSON body of an auth response.  The `user` field keeps the
user object in its serialized form, so `JSON.stringify(data.user)` is the
field itself; `error` is the body's error field. -/
structure AuthData where
  access_token : String
  user : String
  error : String
deriving DecidableEq

/-- The browser localStorage keys written by AuthAPI. -/
structure LocalStorage where
  access_token : Option String
  user : Option String
deriving DecidableEq

/-- The value returned by AuthAPI.signup / AuthAPI.login:
`{ success: true, data }` or `{ success: false, error }`. -/
inductive AuthResult where
  | success (data : AuthData)
  | failure (error : String)
deriving DecidableEq

/-- The message returned by the catch clauses of AuthAPI.signup and login. -/
def networkErrorMsg : String :=
  "Network error. Make sure the Flask backend is running on port 5001."

/-- The try block of AuthAPI.signup: fetch, parse JSON, then either store the
token and user and return success, or return the body's error field. -/
def AuthAPI.signupBody (st : LocalStorage) (o : FetchOutcome AuthData) :
    Except JsError (LocalStorage × AuthResult) := do
  let response ← o.awaitFetch
  let data ← response.json
  if response.ok then
    pure (⟨some data.access_token, some data.user⟩, .success data)
  else
    pure (st, .failure data.error)

/-- AuthAPI.signup(name, email, password): the try block with its catch clause.
`name`, `email`, `password` form the request payload; `st` is the current
localStorage; `o` the outcome of the fetch of POST /auth/signup. -/
def AuthAPI.signup (name email password : String) (st : LocalStorage)
    (o : FetchOutcome AuthData) : LocalStorage × AuthResult :=
  match AuthAPI.signupBody st o with
  | .ok r => r
  | .error _ => (st, .failure networkErrorMsg)

/-- The try block of AuthAPI.login: identical body to signup's. -/
def AuthAPI.loginBody (st : LocalStorage) (o : FetchOutcome AuthData) :
    Except JsError (LocalStorage × AuthResult) := do
  let response ← o.awaitFetch
  let data ← response.json
  if response.ok then
    pure (⟨some data.access_token, some data.user⟩, .success data)
  else
    pure (st, .failure data.error)

/-- AuthAPI.login(email, password): the try block with its catch clause. -/
def AuthAPI.login (email password : String) (st : LocalStorage)
    (o : FetchOutcome AuthData) : LocalStorage × AuthResult :=
  match AuthAPI.loginBody st o with
  | .ok r => r
  | .error _ => (st, .failure networkErrorMsg)

/-- The try block of CalendarAPI.getEvents: return the parsed list when
`response.ok`, otherwise `throw new Error('Failed to fetch events')`. -/
def CalendarAPI.getEventsBody (o : FetchOutcome (List String)) :
    Except JsError (List String) := do
  let response ← o.awaitFetch
  if response.ok then response.json
  else throw (.thrownMsg "Failed to fetch events")

/-- CalendarAPI.getEvents: the try block with its catch clause returning []. -/
def CalendarAPI.getEvents (o : FetchOutcome (List String)) : List String :=
  match CalendarAPI.getEventsBody o with
  | .ok events => events
  | .error _ => []

/-- The try block of CalendarAPI.createEvent(eventData). -/
def CalendarAPI.createEventBody (eventData : String) (o : FetchOutcome String) :
    Except JsError String := do
  let response ← o.awaitFetch
  if response.ok then response.json
  else throw (.thrownMsg "Failed to create event")

/-- CalendarAPI.createEvent: the try block with its catch clause returning null. -/
def CalendarAPI.createEvent (eventData : String) (o : FetchOutcome String) :
    Option String :=
  match CalendarAPI.createEventBody eventData o with
  | .ok d => some d
  | .error _ => none

/-- The try block of MoodAPI.getMoodEntries. -/
def MoodAPI.getMoodEntriesBody (o : FetchOutcome (List String)) :
    Except JsError (List String) := do
  let response ← o.awaitFetch
  if response.ok then response.json
  else throw (.thrownMsg "Failed to fetch mood entries")

/-- MoodAPI.getMoodEntries: the try block with its catch clause returning []. -/
def MoodAPI.getMoodEntries (o : FetchOutcome (List String)) : List String :=
  match MoodAPI.getMoodEntriesBody o with
  | .ok entries => entries
  | .error _ => []

/-- The try block of MoodAPI.createMoodEntry(mood, moodLevel, notes). -/
def MoodAPI.createMoodEntryBody (mood : String) (moodLevel : Nat) (notes : String)
    (o : FetchOutcome String) : Except JsError String := do
  let response ← o.awaitFetch
  if response.ok then response.json
  else throw (.thrownMsg "Failed to create mood entry")

/-- MoodAPI.createMoodEntry: the try block with its catch clause returning null. -/
def MoodAPI.createMoodEntry (mood : String) (moodLevel : Nat) (notes : String)
    (o : FetchOutcome String) : Option String :=
  match MoodAPI.createMoodEntryBody mood moodLevel notes o with
  | .ok d => some d
  | .error _ => none

/-- The try block of GoalsAPI.getGoals. -/
def GoalsAPI.getGoalsBody (o : FetchOutcome (List String)) :
    Except JsError (List String) := do
  let response ← o.awaitFetch
  if response.ok then response.json
  else throw (.thrownMsg "Failed to fetch goals")

/-- GoalsAPI.getGoals: the try block with its catch clause returning []. -/
def GoalsAPI.getGoals (o : FetchOutcome (List String)) : List String :=
  match GoalsAPI.getGoalsBody o with
  | .ok goals => goals
  | .error _ => []

/-- The try block of GoalsAPI.createGoal(goalData). -/
def GoalsAPI.createGoalBody (goalData : String) (o : FetchOutcome String) :
    Except JsError String := do
  let response ← o.awaitFetch
  if response.ok then response.json
  else throw (.thrownMsg "Failed to create goal")

/-- GoalsAPI.createGoal: the try block with its catch clause returning null. -/
def GoalsAPI.createGoal (goalData : String) (o : FetchOutcome String) :
    Option String :=
  match GoalsAPI.createGoalBody goalData o with
  | .ok d => some d
  | .error _ => none

/-- The try block of StudyAPI.getStudySessions. -/
def StudyAPI.getStudySessionsBody (o : FetchOutcome (List String)) :
    Except JsError (List String) := do
  let response ← o.awaitFetch
  if response.ok then response.json
  else throw (.thrownMsg "Failed to fetch study sessions")

/-- StudyAPI.getStudySessions: the try block with its catch clause returning []. -/
def StudyAPI.getStudySessions (o : FetchOutcome (List String)) : List String :=
  match StudyAPI.getStudySessionsBody o with
  | .ok sessions => sessions
  | .error _ => []

/-- The try block of StudyAPI.createStudySession(duration, subject, notes, sessionType). -/
def StudyAPI.createStudySessionBody (duration : Nat) (subject notes sessionType : String)
    (o : FetchOutcome String) : Except JsError String := do
  let response ← o.awaitFetch
  if response.ok then response.json
  else throw (.thrownMsg "Failed to create study session")

/-- StudyAPI.createStudySession: the try block with its catch clause returning null. -/
def StudyAPI.createStudySession (duration : Nat) (subject notes sessionType : String)
    (o : FetchOutcome String) : Option String :=
  match StudyAPI.createStudySessionBody duration subject notes sessionType o with
  | .ok d => some d
  | .error _ => none

/-- A fetch outcome is a failure mode when the fetch rejected, the body was
not valid JSON, or the response was non-OK. -/
def FetchOutcome.isFailure {α : Type} : FetchOutcome α → Bool
  | .networkError => true
  | .response r =>
    match r.bodyJson with
    | .error _ => true
    | .ok _ => !r.ok

/-!
Helper lemmas shared by the claim theorems.
-/

theorem filter_nil_iff_any_false {α : Type} (p : α → Bool) (l : List α) :
    l.filter p = [] ↔ l.any p = false := by
  induction l with
  | nil => simp
  | cons a l ih =>
    cases h : p a <;> simp [List.filter_cons, List.any_cons, h, ih]

theorem any_false_filter {α : Type} (p q : α → Bool) (l : List α)
    (h : l.any q = false) : (l.filter p).any q = false := by
  induction l with
  | nil => rfl
  | cons a l ih =>
    simp only [List.any_cons, Bool.or_eq_false_iff] at h
    cases hp : p a <;> simp [List.filter_cons, hp, List.any_cons, h.1, ih h.2]

theorem any_and_false {α : Type} (p q : α → Bool) (l : List α)
    (h : l.any p = false) : (l.any fun a => p a && q a) = false := by
  induction l with
  | nil => rfl
  | cons a l ih =>
    simp only [List.any_cons, Bool.or_eq_false_iff] at h
    simp [List.any_cons, h.1, ih h.2]

theorem any_token_filter_ne (t : String) (l : List ResetRecord) :
    ((l.filter fun r => !(r.token == t)).any fun r => r.token == t) = false := by
  induction l with
  | nil => rfl
  | cons a l ih =>
    cases h : a.token == t <;> simp [List.filter_cons, h, List.any_cons, ih]

theorem tokenExists_delete (db : DB) (t : String) :
    tokenExists (deleteResetToken db t) t = false :=
  any_token_filter_ne t db.password_resets

theorem tokenExists_delete_of_false (db : DB) (t tok : String)
    (h : tokenExists db tok = false) :
    tokenExists (deleteResetToken db t) tok = false :=
  any_false_filter _ _ _ h

theorem tokenExists_update (db : DB) (e h t : String) :
    tokenExists (updateUserPassword db e h) t = tokenExists db t := rfl

theorem tokenExists_of_validResetRows_cons {db : DB} {tok : String} {now : Nat}
    {r : ResetRecord} {rs : List ResetRecord}
    (h : validResetRows db tok now = r :: rs) : tokenExists db tok = true := by
  have hr : r ∈ validResetRows db tok now := by
    rw [h]
    exact List.mem_cons_self r rs
  have hm := List.mem_filter.mp hr
  have htok : (r.token == tok) = true := by
    have h2 := hm.2
    simp only [Bool.and_eq_true] at h2
    exact h2.1
  apply List.any_eq_true.mpr
  exact ⟨r, hm.1, htok⟩

theorem validResetRows_nil_of_not_exists {db : DB} {tok : String} (now : Nat)
    (h : tokenExists db tok = false) : validResetRows db tok now = [] :=
  (filter_nil_iff_any_false _ _).mpr (any_and_false _ _ _ h)

theorem resetPassword_fail_of_not_exists (hash : String → String) {db : DB} {tok : String}
    (password : String) (now : Nat) (h : tokenExists db tok = false) :
    resetPassword hash db tok password now
      = (db, ⟨400, .error "Invalid or expired token"⟩) := by
  unfold resetPassword
  rw [validResetRows_nil_of_not_exists now h]

theorem tokenExists_after_success (hash : String → String) {db : DB} {tok : String}
    (password : String) {now : Nat} {r : ResetRecord} {rs : List ResetRecord}
    (e : validResetRows db tok now = r :: rs) :
    tokenExists (resetPassword hash db tok password now).1 tok = false := by
  unfold resetPassword
  rw [e]
  exact tokenExists_delete _ tok

theorem resetPassword_fst_cases (hash : String → String) (db : DB) (t p : String) (n : Nat) :
    (resetPassword hash db t p n).1 = db
    ∨ ∃ r rs, validResetRows db t n = r :: rs
        ∧ (resetPassword hash db t p n).1
            = deleteResetToken (updateUserPassword db r.email (hash p)) t := by
  unfold resetPassword
  cases e : validResetRows db t n with
  | nil => left; rfl
  | cons r rs => right; exact ⟨r, rs, rfl, rfl⟩

theorem forgot_state_cases (hash : String → String) (db : DB) (email t : String)
    (jsNow dbNow : Nat) :
    applyOp hash db (.forgot email t jsNow dbNow) = db
    ∨ (tokenExists db t = false
        ∧ applyOp hash db (.forgot email t jsNow dbNow)
            = { db with password_resets :=
                  db.password_resets ++ [⟨email, t, jsNow + 3600000, dbNow⟩] }) := by
  simp only [applyOp]
  unfold forgotPassword
  by_cases hu : (db.users.filter fun u => u.email == email).isEmpty = true
  · left; simp [hu]
  · by_cases ht : tokenExists db t = true
    · left; simp [hu, ht]
    · right
      refine ⟨by simpa using ht, ?_⟩
      simp [hu, ht]

theorem tokenExists_applyOp (hash : String → String) (db : DB) (op : Op) (tok : String)
    (h : tokenExists db tok = false) (hm : opMintsToken tok op = false) :
    tokenExists (applyOp hash db op) tok = false := by
  cases op with
  | forgot email t jsNow dbNow =>
    simp only [opMintsToken] at hm
    rcases forgot_state_cases hash db email t jsNow dbNow with hc | ⟨_, hc⟩
    · rw [hc]; exact h
    · rw [hc]
      simpa [tokenExists, List.any_append, hm] using h
  | reset t p n =>
    simp only [applyOp]
    rcases resetPassword_fst_cases hash db t p n with hc | ⟨r, rs, he, hc⟩
    · rw [hc]; exact h
    · rw [hc]; exact tokenExists_delete_of_false _ t tok h

theorem tokenExists_runOps (hash : String → String) (tok : String) (ops : List Op) :
    ∀ db : DB, tokenExists db tok = false →
      (ops.all fun o => !(opMintsToken tok o)) = true →
      tokenExists (runOps hash db ops) tok = false := by
  induction ops with
  | nil => intro db h _; exact h
  | cons o ops ih =>
    intro db h hm
    simp only [List.all_cons, Bool.and_eq_true, Bool.not_eq_true'] at hm
    have hstep := tokenExists_applyOp hash db o tok h hm.1
    have : runOps hash db (o :: ops) = runOps hash (applyOp hash db o) ops := rfl
    rw [this]
    exact ih _ hstep (by simp only [List.all_eq_true] at hm ⊢; exact hm.2)

theorem nodup_tokens_filter (l : List ResetRecord) (p : ResetRecord → Bool)
    (h : (l.map ResetRecord.token).Nodup) :
    (((l.filter p).map ResetRecord.token).Nodup) :=
  List.Nodup.sublist (List.Sublist.map _ (List.filter_sublist l)) h

theorem nodup_tokens_append (l : List ResetRecord) (x : ResetRecord)
    (h : (l.map ResetRecord.token).Nodup)
    (hx : (l.any fun r => r.token == x.token) = false) :
    (((l ++ [x]).map ResetRecord.token).Nodup) := by
  rw [List.map_append]
  apply List.Nodup.append h (List.nodup_singleton _)
  intro a ha hb
  simp only [List.map_cons, List.map_nil, List.mem_singleton] at hb
  subst hb
  rcases List.mem_map.mp ha with ⟨r, hr, hrt⟩
  have : (l.any fun r => r.token == x.token) = true :=
    List.any_eq_true.mpr ⟨r, hr, by simp [hrt]⟩
  rw [this] at hx
  exact Bool.true_eq_false.mp hx |>.elim

theorem hasValidToken_false_iff (db : DB) (tok : String) (now : Nat) :
    hasValidToken db tok now = false ↔ validResetRows db tok now = [] :=
  ((filter_nil_iff_any_false _ _).symm : _)

theorem map_id_of_all {α : Type} (f : α → α) (l : List α)
    (h : ∀ a ∈ l, f a = a) : l.map f = l := by
  induction l with
  | nil => rfl
  | cons a l ih =>
    simp [List.map_cons, h a (List.mem_cons_self a l),
      ih fun b hb => h b (List.mem_cons_of_mem a hb)]

/-!
Claim theorems.
-/

/-- C1: the forgot-password handler does not return the same response for a
registered and an unregistered email: for the registered address it answers
"Password reset link has been sent to your email." while for the unregistered
one it answers "If this email is registered, a reset link will be sent.", so
the response discloses account existence, contradicting the claimed
indistinguishability (the handler's own unregistered-branch message documents
the intended countermeasure, so this is a defect of the code). -/
theorem forgot_password_response_reveals_account_existence :
    forgotPassword dbOneUser "u@e" "t0" 0 0
      = .ok ({ dbOneUser with password_resets := [⟨"u@e", "t0", 3600000, 0⟩] },
             ⟨200, JsonBody.message "Password reset link has been sent to your email."⟩)
    ∧ forgotPassword ⟨[], []⟩ "u@e" "t0" 0 0
      = .ok (⟨[], []⟩,
             ⟨200, JsonBody.message "If this email is registered, a reset link will be sent."⟩)
    ∧ "Password reset link has been sent to your email."
        ≠ "If this email is registered, a reset link will be sent." :=
  ⟨rfl, rfl, by decide⟩

/-- C2: the credential UPDATE and the token DELETE are two separate awaited
queries with no transaction, so the execution that stops between them leaves
the user's password_hash already replaced while the token row is still stored
— and the same token can then be presented again and succeed a second time.
This contradicts the claimed atomicity (both-or-neither). -/
theorem reset_password_crash_leaves_token_reusable :
    resetPasswordCrashAfterUpdate hashPassword dbUserToken "tok" "Abcdefg1" 5
      = ⟨[⟨"Alice", "u@e", "hashed:Abcdefg1"⟩], [tokRecord]⟩
    ∧ tokenExists
        (resetPasswordCrashAfterUpdate hashPassword dbUserToken "tok" "Abcdefg1" 5)
        "tok" = true
    ∧ (resetPassword hashPassword
        (resetPasswordCrashAfterUpdate hashPassword dbUserToken "tok" "Abcdefg1" 5)
        "tok" "Qrstuv2w" 6).2
      = ⟨200, JsonBody.message "Password reset successful"⟩ :=
  ⟨rfl, rfl, rfl⟩

/-- C3: the reset-password handler performs no password-policy validation at
all: the password "abc12345" (no uppercase letter, so it violates the
documented policy) is accepted — the handler hashes it, stores it as the
user's new credential and answers 200 — instead of returning a
ValidationError before the token lookup. -/
theorem reset_password_accepts_policy_violating_password :
    passwordMeetsPolicy "abc12345" = false
    ∧ resetPassword hashPassword dbUserToken "tok" "abc12345" 5
      = (⟨[⟨"Alice", "u@e", "hashed:abc12345"⟩], []⟩,
         ⟨200, JsonBody.message "Password reset successful"⟩) :=
  ⟨by decide, rfl⟩

/-- C4 counterexample: with a stored, unexpired token whose email matches no
user, the reset-password handler answers 200 "Password reset successful"
(and deletes the token) — it does not fail with the InvalidOrExpiredToken
error the claim requires. -/
theorem reset_password_orphan_account_cex :
    resetPassword hashPassword dbOrphan "tok" "Abcdefg1" 5
      = (⟨[], []⟩, ⟨200, JsonBody.message "Password reset successful"⟩)
    ∧ (resetPassword hashPassword dbOrphan "tok" "Abcdefg1" 5).2
        ≠ ⟨400, JsonBody.error "Invalid or expired token"⟩ :=
  ⟨rfl, by decide⟩

/-- C4 amended: for every reset-password call presenting a stored, unexpired,
unconsumed token whose email matches no existing user, the handler performs
no credential update (the users table is unchanged), but it returns the 200
success response and consumes (deletes) the token rather than failing with
InvalidOrExpiredToken. -/
theorem reset_password_orphan_account_returns_success
    (hash : String → String) (db : DB) (token password : String) (now : Nat)
    (r : ResetRecord) (rs : List ResetRecord)
    (hv : validResetRows db token now = r :: rs)
    (hu : (db.users.all fun u => !(u.email == r.email)) = true) :
    (resetPassword hash db token password now).2
        = ⟨200, JsonBody.message "Password reset successful"⟩
    ∧ (resetPassword hash db token password now).1.users = db.users
    ∧ tokenExists (resetPassword hash db token password now).1 token = false := by
  refine ⟨?_, ?_, tokenExists_after_success hash password hv⟩
  · unfold resetPassword
    rw [hv]
  · unfold resetPassword
    rw [hv]
    show (db.users.map fun u =>
        if u.email == r.email then { u with password_hash := hash password } else u)
      = db.users
    apply map_id_of_all
    intro u hu2
    have hne := List.all_eq_true.mp hu u hu2
    simp only [Bool.not_eq_true'] at hne
    simp [hne]

/-- C4 witness: a concrete instantiation of the amended theorem. -/
theorem reset_password_orphan_account_returns_success_witness :
    (resetPassword hashPassword dbOrphan "tok" "Abcdefg1" 5).2
        = ⟨200, JsonBody.message "Password reset successful"⟩
    ∧ (resetPassword hashPassword dbOrphan "tok" "Abcdefg1" 5).1.users = dbOrphan.users
    ∧ tokenExists (resetPassword hashPassword dbOrphan "tok" "Abcdefg1" 5).1 "tok" = false :=
  reset_password_orphan_account_returns_success hashPassword dbOrphan "tok" "Abcdefg1" 5
    ⟨"ghost@e", "tok", 100, 0⟩ [] (by decide) (by decide)

/-- C5 counterexample: at `now = expiresAt` the stored token's record is
present (hence not consumed) and `now > expiresAt` is false, so under the
claim's "exactly when" the call must not fail — yet the handler's SELECT
requires `expires_at > NOW()` and the call fails with the
InvalidOrExpiredToken response. -/
theorem reset_password_boundary_expiry_cex :
    tokenExists dbUserToken "tok" = true
    ∧ ¬ (100 > tokRecord.expires_at)
    ∧ (resetPassword hashPassword dbUserToken "tok" "Abcdefg1" 100).2
        = ⟨400, JsonBody.error "Invalid or expired token"⟩ :=
  ⟨rfl, by decide, rfl⟩

/-- C5 amended: the reset-password call fails, with the single
indistinguishable response 400 { error: "Invalid or expired token" }, exactly
when no stored row holds the presented token with `expiresAt` strictly
greater than `now` — that is, when the token has no record (consumed tokens
are deleted, so they have no record) or `now ≥ expiresAt`; the causes are
not distinguishable because every failure produces this one response. -/
theorem reset_password_error_iff_no_live_token (hash : String → String) (db : DB)
    (token password : String) (now : Nat) :
    (resetPassword hash db token password now).2
        = ⟨400, JsonBody.error "Invalid or expired token"⟩
      ↔ hasValidToken db token now = false := by
  constructor
  · intro h
    apply (hasValidToken_false_iff db token now).mpr
    cases e : validResetRows db token now with
    | nil => rfl
    | cons r rs =>
      exfalso
      unfold resetPassword at h
      rw [e] at h
      simp at h
  · intro h
    have e := (hasValidToken_false_iff db token now).mp h
    unfold resetPassword
    rw [e]

/-- C6: a token presented while a live record for it is stored (not consumed —
consumption deletes the record — and before its expiry) succeeds, and after
that success every later reset-password call presenting the same token, run
after any further sequence of operations in which the forgot-password token
generator never re-mints that same value, fails with the InvalidOrExpiredToken
response: a token never succeeds twice. -/
theorem reset_token_never_succeeds_twice (hash : String → String) (db : DB)
    (tok p : String) (now : Nat)
    (hpol : passwordMeetsPolicy p = true)
    (hv : validResetRows db tok now ≠ []) :
    (resetPassword hash db tok p now).2
        = ⟨200, JsonBody.message "Password reset successful"⟩
    ∧ ∀ ops : List Op, (ops.all fun o => !(opMintsToken tok o)) = true →
        ∀ (p2 : String) (now2 : Nat),
          (resetPassword hash
              (runOps hash (resetPassword hash db tok p now).1 ops) tok p2 now2).2
            = ⟨400, JsonBody.error "Invalid or expired token"⟩ := by
  cases e : validResetRows db tok now with
  | nil => exact absurd e hv
  | cons r rs =>
    constructor
    · unfold resetPassword
      rw [e]
    · intro ops hm p2 now2
      have h1 : tokenExists (resetPassword hash db tok p now).1 tok = false :=
        tokenExists_after_success hash p e
      have h2 := tokenExists_runOps hash tok ops _ h1 hm
      rw [resetPassword_fail_of_not_exists hash p2 now2 h2]

/-- C6 witness: a concrete run — the token succeeds once, then fails. -/
theorem reset_token_never_succeeds_twice_witness :
    (resetPassword hashPassword dbUserToken "tok" "Abcdefg1" 5).2
        = ⟨200, JsonBody.message "Password reset successful"⟩
    ∧ (resetPassword hashPassword
          (runOps hashPassword (resetPassword hashPassword dbUserToken "tok" "Abcdefg1" 5).1 [])
          "tok" "Abcdefg1" 6).2
        = ⟨400, JsonBody.error "Invalid or expired token"⟩ := by
  have h := reset_token_never_succeeds_twice hashPassword dbUserToken "tok" "Abcdefg1" 5
    (by decide) (by decide)
  exact ⟨h.1, h.2 [] (by decide) "Abcdefg1" 6⟩

/-- C7 counterexample: the handler computes `expires_at` from the
application clock (Date.now() + 3600000) while `created_at` (the record's
issued-at) is filled by the database clock's CURRENT_TIMESTAMP default at
insert time.  With the application clock at 0 and the database clock at 1,
the created record has expires_at - created_at = 3599999 ms ≠ 1 hour. -/
theorem forgot_password_expiry_issued_skew_cex :
    forgotPassword dbOneUser "u@e" "t1" 0 1
      = .ok ({ dbOneUser with password_resets := [skewRecord] },
             ⟨200, JsonBody.message "Password reset link has been sent to your email."⟩)
    ∧ (skewRecord.expires_at : Int) - (skewRecord.created_at : Int) ≠ 3600000 :=
  ⟨rfl, by decide⟩

/-- C7 amended: for a registered email (and a generated token that does not
collide), exactly one new ResetToken row is appended per call; its
expires_at equals the application-clock reading plus exactly 3600000 ms,
while its created_at is the database-clock reading at insert time, so
expiresAt - issuedAt equals exactly one hour iff the two readings coincide
— not unconditionally. -/
theorem forgot_password_single_record_exact_offset
    (db : DB) (email token : String) (jsNow dbNow : Nat)
    (hu : (db.users.filter fun u => u.email == email).isEmpty = false)
    (ht : tokenExists db token = false) :
    forgotPassword db email token jsNow dbNow
      = .ok ({ db with password_resets :=
                db.password_resets ++ [⟨email, token, jsNow + 3600000, dbNow⟩] },
             ⟨200, JsonBody.message "Password reset link has been sent to your email."⟩)
    ∧ (((jsNow : Int) + 3600000) - (dbNow : Int) = 3600000 ↔ jsNow = dbNow) := by
  constructor
  · unfold forgotPassword
    simp [hu, ht]
  · omega

/-- C7 witness: a concrete instantiation with coinciding clock readings. -/
theorem forgot_password_single_record_exact_offset_witness :
    forgotPassword dbOneUser "u@e" "t1" 7 7
      = .ok ({ dbOneUser with password_resets :=
                dbOneUser.password_resets ++ [⟨"u@e", "t1", 7 + 3600000, 7⟩] },
             ⟨200, JsonBody.message "Password reset link has been sent to your email."⟩)
    ∧ (((7 : Int) + 3600000) - ((7 : Nat) : Int) = 3600000 ↔ (7 : Nat) = 7) :=
  forgot_password_single_record_exact_offset dbOneUser "u@e" "t1" 7 7 (by decide) (by decide)

/-- C8 counterexample: when the generated token collides with a stored one,
the INSERT fails under the UNIQUE constraint and the handler simply aborts
with the store unchanged — no fresh token is regenerated, contradicting the
claim's regeneration clause. -/
theorem forgot_password_collision_no_regeneration_cex :
    forgotPassword dbUserToken "u@e" "tok" 5 5 = .error dbUserToken := rfl

/-- C8 amended: no two stored ResetToken rows ever hold the same token value
— distinctness of stored token values is preserved by every operation, and a
forgot-password call whose generated token collides with a stored one fails
(UNIQUE-constraint rejection) with the store unchanged; however the handler
does not regenerate a fresh token on collision: the request errors out. -/
theorem token_uniqueness_preserved (hash : String → String) (db : DB) (op : Op)
    (h : (db.password_resets.map ResetRecord.token).Nodup) :
    ((applyOp hash db op).password_resets.map ResetRecord.token).Nodup
    ∧ ∀ email token jsNow dbNow,
        ((db.users.filter fun u => u.email == email).isEmpty = false) →
        tokenExists db token = true →
        forgotPassword db email token jsNow dbNow = .error db := by
  constructor
  · cases op with
    | forgot email t jsNow dbNow =>
      rcases forgot_state_cases hash db email t jsNow dbNow with hc | ⟨hfresh, hc⟩
      · rw [hc]; exact h
      · rw [hc]
        exact nodup_tokens_append db.password_resets ⟨email, t, jsNow + 3600000, dbNow⟩ h hfresh
    | reset t p n =>
      simp only [applyOp]
      rcases resetPassword_fst_cases hash db t p n with hc | ⟨r, rs, he, hc⟩
      · rw [hc]; exact h
      · rw [hc]
        exact nodup_tokens_filter _ _ h
  · intro email token jsNow dbNow hu ht
    unfold forgotPassword
    simp [hu, ht]

/-- C8 witness: a concrete instantiation — the invariant is preserved by a
consuming reset, and a colliding forgot-password call fails unchanged. -/
theorem token_uniqueness_preserved_witness :
    ((applyOp hashPassword dbUserToken (.reset "tok" "Abcdefg1" 5)).password_resets.map
        ResetRecord.token).Nodup
    ∧ forgotPassword dbUserToken "u@e" "tok" 3 4 = .error dbUserToken := by
  have h := token_uniqueness_preserved hashPassword dbUserToken (.reset "tok" "Abcdefg1" 5)
    (by decide)
  exact ⟨h.1, h.2 "u@e" "tok" 3 4 (by decide) (by decide)⟩

/-- C9: for every fetch outcome, AuthAPI.signup and AuthAPI.login compute the
same total result (their try blocks are identical); a rejected fetch or an
unparseable body is caught and yields the network-error failure object; a
parsed non-OK response yields a failure carrying the body's error field; a
parsed OK response stores the access token and the serialized user in
localStorage and returns the success object carrying the data. -/
theorem auth_api_never_throws (name email password : String) (st : LocalStorage)
    (o : FetchOutcome AuthData) :
    AuthAPI.signup name email password st o = AuthAPI.login email password st o
    ∧ (o = .networkError →
        AuthAPI.signup name email password st o = (st, .failure networkErrorMsg))
    ∧ (∀ r : HttpResp AuthData, o = .response r → r.bodyJson = .error () →
        AuthAPI.signup name email password st o = (st, .failure networkErrorMsg))
    ∧ (∀ (r : HttpResp AuthData) (d : AuthData), o = .response r → r.bodyJson = .ok d →
        r.ok = false →
        AuthAPI.signup name email password st o = (st, .failure d.error))
    ∧ (∀ (r : HttpResp AuthData) (d : AuthData), o = .response r → r.bodyJson = .ok d →
        r.ok = true →
        AuthAPI.signup name email password st o
          = (⟨some d.access_token, some d.user⟩, .success d)) := by
  refine ⟨?_, ?_, ?_, ?_, ?_⟩
  · cases o with
    | networkError => rfl
    | response r =>
      rcases r with ⟨ok, u | d⟩
      · rfl
      · cases ok <;> rfl
  · intro h
    subst h
    rfl
  · intro r h hb
    subst h
    rcases r with ⟨ok, body⟩
    simp only at hb
    subst hb
    rfl
  · intro r d h hb hok
    subst h
    rcases r with ⟨ok, body⟩
    simp only at hb hok
    subst hb
    subst hok
    rfl
  · intro r d h hb hok
    subst h
    rcases r with ⟨ok, body⟩
    simp only at hb hok
    subst hb
    subst hok
    rfl

/-- C9 witness: a concrete OK response is stored and returned as success. -/
theorem auth_api_never_throws_witness :
    AuthAPI.signup "n" "e@x" "pw" ⟨none, none⟩
        (.response ⟨true, .ok ⟨"jwt", "ujson", ""⟩⟩)
      = (⟨some "jwt", some "ujson"⟩, .success ⟨"jwt", "ujson", ""⟩) :=
  (auth_api_never_throws "n" "e@x" "pw" ⟨none, none⟩
      (.response ⟨true, .ok ⟨"jwt", "ujson", ""⟩⟩)).2.2.2.2
    ⟨true, .ok ⟨"jwt", "ujson", ""⟩⟩ ⟨"jwt", "ujson", ""⟩ rfl rfl rfl

theorem getEvents_fallback (o : FetchOutcome (List String)) (h : o.isFailure = true) :
    CalendarAPI.getEvents o = [] := by
  rcases o with _ | ⟨ok, u | d⟩
  · rfl
  · cases ok <;> rfl
  · simp only [FetchOutcome.isFailure, Bool.not_eq_true'] at h
    subst h
    rfl

theorem getMoodEntries_fallback (o : FetchOutcome (List String)) (h : o.isFailure = true) :
    MoodAPI.getMoodEntries o = [] := by
  rcases o with _ | ⟨ok, u | d⟩
  · rfl
  · cases ok <;> rfl
  · simp only [FetchOutcome.isFailure, Bool.not_eq_true'] at h
    subst h
    rfl

theorem getGoals_fallback (o : FetchOutcome (List String)) (h : o.isFailure = true) :
    GoalsAPI.getGoals o = [] := by
  rcases o with _ | ⟨ok, u | d⟩
  · rfl
  · cases ok <;> rfl
  · simp only [FetchOutcome.isFailure, Bool.not_eq_true'] at h
    subst h
    rfl

theorem getStudySessions_fallback (o : FetchOutcome (List String)) (h : o.isFailure = true) :
    StudyAPI.getStudySessions o = [] := by
  rcases o with _ | ⟨ok, u | d⟩
  · rfl
  · cases ok <;> rfl
  · simp only [FetchOutcome.isFailure, Bool.not_eq_true'] at h
    subst h
    rfl

theorem createEvent_fallback (eventData : String) (o : FetchOutcome String)
    (h : o.isFailure = true) : CalendarAPI.createEvent eventData o = none := by
  rcases o with _ | ⟨ok, u | d⟩
  · rfl
  · cases ok <;> rfl
  · simp only [FetchOutcome.isFailure, Bool.not_eq_true'] at h
    subst h
    rfl

theorem createMoodEntry_fallback (mood : String) (moodLevel : Nat) (notes : String)
    (o : FetchOutcome String) (h : o.isFailure = true) :
    MoodAPI.createMoodEntry mood moodLevel notes o = none := by
  rcases o with _ | ⟨ok, u | d⟩
  · rfl
  · cases ok <;> rfl
  · simp only [FetchOutcome.isFailure, Bool.not_eq_true'] at h
    subst h
    rfl

theorem createGoal_fallback (goalData : String) (o : FetchOutcome String)
    (h : o.isFailure = true) : GoalsAPI.createGoal goalData o = none := by
  rcases o with _ | ⟨ok, u | d⟩
  · rfl
  · cases ok <;> rfl
  · simp only [FetchOutcome.isFailure, Bool.not_eq_true'] at h
    subst h
    rfl

theorem createStudySession_fallback (duration : Nat) (subject notes sessionType : String)
    (o : FetchOutcome String) (h : o.isFailure = true) :
    StudyAPI.createStudySession duration subject notes sessionType o = none := by
  rcases o with _ | ⟨ok, u | d⟩
  · rfl
  · cases ok <;> rfl
  · simp only [FetchOutcome.isFailure, Bool.not_eq_true'] at h
    subst h
    rfl

/-- C10: under every failure mode — rejected fetch (network error), non-OK
HTTP response, or unparseable body — each list-fetching helper returns the
empty list and each create helper returns null (none); every helper is a
total function (the thrown Failed-to-... errors are caught by the same
try/catch), so no exception reaches the caller. -/
theorem list_create_api_error_fallbacks
    (oL : FetchOutcome (List String)) (oC : FetchOutcome String)
    (eventData mood notes goalData subject sessionType : String)
    (moodLevel duration : Nat)
    (hL : oL.isFailure = true) (hC : oC.isFailure = true) :
    CalendarAPI.getEvents oL = []
    ∧ MoodAPI.getMoodEntries oL = []
    ∧ GoalsAPI.getGoals oL = []
    ∧ StudyAPI.getStudySessions oL = []
    ∧ CalendarAPI.createEvent eventData oC = none
    ∧ MoodAPI.createMoodEntry mood moodLevel notes oC = none
    ∧ GoalsAPI.createGoal goalData oC = none
    ∧ StudyAPI.createStudySession duration subject notes sessionType oC = none :=
  ⟨getEvents_fallback oL hL, getMoodEntries_fallback oL hL, getGoals_fallback oL hL,
   getStudySessions_fallback oL hL, createEvent_fallback eventData oC hC,
   createMoodEntry_fallback mood moodLevel notes oC hC,
   createGoal_fallback goalData oC hC,
   createStudySession_fallback duration subject notes sessionType oC hC⟩

/-- C10 witness: the fallbacks at a concrete network-error outcome. -/
theorem list_create_api_error_fallbacks_witness :
    CalendarAPI.getEvents (.networkError : FetchOutcome (List String)) = []
    ∧ MoodAPI.getMoodEntries (.networkError : FetchOutcome (List String)) = []
    ∧ GoalsAPI.getGoals (.networkError : FetchOutcome (List String)) = []
    ∧ StudyAPI.getStudySessions (.networkError : FetchOutcome (List String)) = []
    ∧ CalendarAPI.createEvent "ev" (.networkError : FetchOutcome String) = none
    ∧ MoodAPI.createMoodEntry "happy" 4 "" (.networkError : FetchOutcome String) = none
    ∧ GoalsAPI.createGoal "goal" (.networkError : FetchOutcome String) = none
    ∧ StudyAPI.createStudySession 25 "math" "" "pomodoro"
        (.networkError : FetchOutcome String) = none :=
  list_create_api_error_fallbacks .networkError .networkError
    "ev" "happy" "" "goal" "math" "pomodoro" 4 25 rfl rfl
